import Mathlib

set_option maxRecDepth 100000

/-!
Shallow embedding of the TFTP client in `tftpd.c` (the second, compiling
source file of the repository): the wire codec (`tftp_enc_packet`,
`tftp_dec_opcode`, `tftp_dec_blkno`, `tftp_dec_data`, `tftp_dec_error`),
the receive-dispatch part of `tftp_mainloop`, and the timer/backoff
discipline of the select loop.  Bytes are modelled as `Nat` (the C buffers
are `unsigned char`), buffers as `List Nat`, and the 16-bit block counter
as a `Nat` reduced `% 65536` where the C increments a `uint16_t`.
-/

namespace Tftp

/-! ### Constants (the `#define`s at the top of tftpd.c) -/

def TFTP_OPCODE_RRQ : Nat := 1
def TFTP_OPCODE_WRQ : Nat := 2
def TFTP_OPCODE_DATA : Nat := 3
def TFTP_OPCODE_ACK : Nat := 4
def TFTP_OPCODE_ERROR : Nat := 5

def TFTP_DEF_RETRIES : Nat := 6

/-- `TFTP_DEF_TIMEOUT_SEC = 0`, `TFTP_DEF_TIMEOUT_USEC = 50000`, expressed
in milliseconds. -/
def TFTP_DEF_TIMEOUT_MS : Nat := 50

def TFTP_BLOCKSIZE : Nat := 512

/-- `TFTP_MAX_MSGSIZE = 4 + TFTP_BLOCKSIZE`. -/
def TFTP_MAX_MSGSIZE : Nat := 4 + TFTP_BLOCKSIZE

/-- The seven `TFTP_STATE_*` codes. -/
inductive State where
  | CLOSED
  | RRQ_SENT
  | WRQ_SENT
  | DATA_SENT
  | LAST_DATA_SENT
  | ACK_SENT
  | LAST_ACK_SENT
deriving DecidableEq, Repr

/-! ### The wire codec -/

/-- High byte, as in `(x >> 8) & 0xff` on a `uint16_t`. -/
def hi (x : Nat) : Nat := (x / 256) % 256

/-- Low byte, as in `x & 0xff`. -/
def lo (x : Nat) : Nat := x % 256

/-- `strlen` on a byte list standing for a C string: the number of bytes
before the first NUL. -/
def cstrlen (s : List Nat) : Nat := (s.takeWhile (fun b => b != 0)).length

/-- The bytes of a C string up to (excluding) its first NUL; what
`memcpy(p, s, strlen(s))` copies. -/
def cstr (s : List Nat) : List Nat := s.takeWhile (fun b => b != 0)

/-- `tftp_enc_packet` (tftpd.c lines 123-187).  The C writes into
`tftp->msg` and returns the written length, or `(size_t)-1` on an
encoding error; we return the written bytes, `none` standing for the
`-1` error return.  `file` and `mode` are the session's `tftp->file`
and `tftp->mode` strings; for `TFTP_OPCODE_ERROR` the C reads `data`
as a NUL-terminated string (`strlen((char *) data)`).  A `switch`
opcode outside the five cases falls through: only the two opcode
bytes are written and `msglen = 2` is returned. -/
def tftp_enc_packet (file mode : List Nat) (opcode blkno : Nat)
    (data : List Nat) : Option (List Nat) :=
  let hdr := [hi opcode, lo opcode]
  if opcode = TFTP_OPCODE_RRQ ∨ opcode = TFTP_OPCODE_WRQ then
    let len := cstrlen file + 1 + cstrlen mode + 1
    if 4 + len > TFTP_MAX_MSGSIZE then
      none
    else
      some (hdr ++ cstr file ++ [0] ++ cstr mode ++ [0])
  else if opcode = TFTP_OPCODE_DATA then
    if 4 + data.length > TFTP_MAX_MSGSIZE then
      none
    else
      some (hdr ++ [hi blkno, lo blkno] ++ data)
  else if opcode = TFTP_OPCODE_ACK then
    some (hdr ++ [hi blkno, lo blkno])
  else if opcode = TFTP_OPCODE_ERROR then
    let len := cstrlen data
    if 4 + len + 1 > TFTP_MAX_MSGSIZE then
      none
    else
      some (hdr ++ [hi blkno, lo blkno] ++ cstr data ++ [0])
  else
    some hdr

/-- `tftp_dec_opcode` (lines 193-202): `none` models the `0xffff`
malformed return, `some` the decoded `(buf[0] << 8) + buf[1]`. -/
def tftp_dec_opcode (buf : List Nat) : Option Nat :=
  if buf.length < 2 then none
  else some (buf.getD 0 0 * 256 + buf.getD 1 0)

/-- `tftp_dec_blkno` (lines 204-213). -/
def tftp_dec_blkno (buf : List Nat) : Option Nat :=
  if buf.length < 4 then none
  else some (buf.getD 2 0 * 256 + buf.getD 3 0)

/-- `tftp_dec_data` (lines 215-228): note the guard in the C is
`buflen < 5`, so a 4-byte buffer is rejected. -/
def tftp_dec_data (buf : List Nat) : Option (List Nat) :=
  if buf.length < 5 then none
  else some (buf.drop 4)

/-- `tftp_dec_error` (lines 230-255): length must be at least 5 and the
region from offset 4 on must contain a NUL; both failure returns
(`0xffff` and `-1`) are modelled as `none`.  On success the error code
and the message bytes up to the NUL are produced. -/
def tftp_dec_error (buf : List Nat) : Option (Nat × List Nat) :=
  if buf.length < 5 then none
  else if (buf.drop 4).all (fun b => b != 0) then none
  else some (buf.getD 2 0 * 256 + buf.getD 3 0,
             (buf.drop 4).takeWhile (fun b => b != 0))

/-! ### Session state and the dispatch part of the mainloop -/

/-- The session fields `tftp_mainloop` reads and writes, together with
the loop-local `retries` counter.  `timerSet` models
`timerisset(&tftp->timer)`; `addr` is an abstract identity for
`tftp->addr`; `localIn` is the unread rest of the local file (the
`read(tftp->fd, ...)` source on a WRQ) and `localOut` the bytes written
so far (the `write(tftp->fd, ...)` sink on an RRQ); `rc` is `true`
while `rc == EXIT_SUCCESS`. -/
structure Sess where
  state : State
  blkno : Nat
  msg : List Nat
  retries : Nat
  timerSet : Bool
  addr : Nat
  file : List Nat
  mode : List Nat
  localIn : List Nat
  localOut : List Nat
  rc : Bool
deriving DecidableEq, Repr

/-- The dispatch phase of `tftp_mainloop` (lines 419-521): everything
after `recvfrom` succeeded, for one received buffer.  `none` models the
immediate `return EXIT_FAILURE` paths (an encoding error; local I/O
errors cannot occur in the model); `some s` with `s` unchanged models
every `continue`/drop path.  Faithfully to line 486-487, a failing
`tftp_dec_data` is ignored and leaves `data = NULL`, `datalen = 0`,
so the RRQ path proceeds with an empty payload. -/
def tftp_dispatch (s : Sess) (buf : List Nat) : Option Sess :=
  match tftp_dec_opcode buf with
  | none => some s
  | some opcode =>
    match s.state with
    | State.WRQ_SENT | State.DATA_SENT | State.LAST_DATA_SENT =>
      if opcode = TFTP_OPCODE_ACK then
        match tftp_dec_blkno buf with
        | none => some s
        | some blkno =>
          if blkno ≠ s.blkno then
            some s
          else if s.state = State.LAST_DATA_SENT then
            some { s with state := State.CLOSED }
          else
            match tftp_enc_packet s.file s.mode TFTP_OPCODE_DATA
                ((s.blkno + 1) % 65536) (s.localIn.take TFTP_BLOCKSIZE) with
            | none => none
            | some m =>
              some { s with
                     blkno := (s.blkno + 1) % 65536,
                     msg := m,
                     timerSet := false,
                     retries := TFTP_DEF_RETRIES,
                     localIn := s.localIn.drop TFTP_BLOCKSIZE,
                     state := if (s.localIn.take TFTP_BLOCKSIZE).length =
                                  TFTP_BLOCKSIZE then
                                State.DATA_SENT
                              else State.LAST_DATA_SENT }
      else if opcode = TFTP_OPCODE_ERROR then
        match tftp_dec_error buf with
        | none => some s
        | some _ => some { s with state := State.CLOSED, rc := false }
      else
        some s
    | State.RRQ_SENT | State.ACK_SENT =>
      if opcode = TFTP_OPCODE_DATA then
        match tftp_dec_blkno buf with
        | none => some s
        | some blkno =>
          if blkno = s.blkno then
            match tftp_enc_packet s.file s.mode TFTP_OPCODE_ACK s.blkno [] with
            | none => none
            | some m =>
              some { s with
                     localOut := s.localOut ++ (tftp_dec_data buf).getD [],
                     msg := m,
                     blkno := (s.blkno + 1) % 65536,
                     timerSet := false,
                     retries := TFTP_DEF_RETRIES,
                     state := if ((tftp_dec_data buf).getD []).length =
                                  TFTP_BLOCKSIZE then
                                State.ACK_SENT
                              else State.LAST_ACK_SENT }
          else
            some s
      else if opcode = TFTP_OPCODE_ERROR then
        match tftp_dec_error buf with
        | none => some s
        | some _ => some { s with state := State.CLOSED, rc := false }
      else
        some s
    | _ => some s

/-- `recvfrom` at lines 411-412 stores the sender's address into
`tftp->addr` before any validation; the dispatch then runs on the
updated session. -/
def tftp_recv_dispatch (s : Sess) (sender : Nat) (buf : List Nat) :
    Option Sess :=
  tftp_dispatch { s with addr := sender } buf

/-! ### Timer discipline and the no-receive run of the loop -/

/-- `tftp->timer` and `tftp->backoff` together with the set/cleared flag
(`timerisset`). -/
structure TimerSt where
  timerSet : Bool
  timer : Nat
  backoff : Nat
deriving DecidableEq, Repr

/-- The three-branch timer block of `tftp_mainloop` (lines 375-390),
run at time `now`; yields the updated timer state and the `timeout`
handed to `select`, in milliseconds. -/
def timer_phase (t : TimerSt) (now : Nat) : TimerSt × Nat :=
  if t.timerSet = false then
    ({ timerSet := true,
       timer := now + TFTP_DEF_TIMEOUT_MS,
       backoff := TFTP_DEF_TIMEOUT_MS }, TFTP_DEF_TIMEOUT_MS)
  else if now > t.timer then
    ({ timerSet := true,
       timer := now + (t.backoff + t.backoff),
       backoff := t.backoff + t.backoff }, t.backoff + t.backoff)
  else
    (t, t.timer - now)

/-- Observable trace of a run of `tftp_mainloop` in which no datagram
ever arrives: the timer state, the clock, the loop-local `retries`, the
number of `sendto` calls so far, and the successive `select` timeouts. -/
structure LoopSt where
  t : TimerSt
  now : Nat
  retries : Nat
  sends : Nat
  waits : List Nat
deriving DecidableEq, Repr

/-- Outcome of the no-receive run: `timeout` is the
`"timeout, aborting data transfer"` / `EXIT_FAILURE` return at line
401-407; `fuelOut` is never reached with enough fuel. -/
inductive LoopRes where
  | timeout (st : LoopSt)
  | fuelOut (st : LoopSt)
deriving DecidableEq, Repr

def LoopRes.finalSt : LoopRes → LoopSt
  | LoopRes.timeout st => st
  | LoopRes.fuelOut st => st

def LoopRes.isTimeout : LoopRes → Bool
  | LoopRes.timeout _ => true
  | LoopRes.fuelOut _ => false

/-- One full iteration of `tftp_mainloop` (lines 347-409) when `select`
always expires with no datagram, in a non-terminal state other than
`LAST_ACK_SENT`: send if the timer is clear or expired, run the timer
block, sleep the full `select` timeout (after which the clock stands
strictly past the deadline, modelled as `wait + 1`), then decrement
`retries` and fail when it reaches zero. -/
def tftp_mainloop_norx : Nat → LoopSt → LoopRes
  | 0, st => LoopRes.fuelOut st
  | fuel + 1, st =>
    let sends := if st.t.timerSet = false ∨ st.now > st.t.timer then
                   st.sends + 1
                 else st.sends
    let tp := timer_phase st.t st.now
    let st' : LoopSt :=
      { t := tp.1,
        now := st.now + tp.2 + 1,
        retries := st.retries - 1,
        sends := sends,
        waits := st.waits ++ [tp.2] }
    if st'.retries = 0 then LoopRes.timeout st'
    else tftp_mainloop_norx fuel st'

/-- The loop entry conditions (lines 345-346): `retries =
TFTP_DEF_RETRIES`, `timerclear(&tftp->timer)`; the clock starts at 0. -/
def initLoopSt : LoopSt :=
  { t := { timerSet := false, timer := 0, backoff := 0 },
    now := 0, retries := TFTP_DEF_RETRIES, sends := 0, waits := [] }

/-! ### Concrete inputs used by the claim theorems -/

/-- The bytes of the mode string `"octet"`. -/
def octetMode : List Nat := [111, 99, 116, 101, 116]

/-- A session freshly in `RRQ_SENT` awaiting block 1 (claim C7). -/
def c7sess : Sess :=
  { state := State.RRQ_SENT, blkno := 1, msg := [], retries := 6,
    timerSet := true, addr := 5, file := [104], mode := octetMode,
    localIn := [], localOut := [], rc := true }

/-- A session in `RRQ_SENT` awaiting block 1, with a partly spent retry
budget and a stale outgoing buffer (claim C6). -/
def c6sess : Sess :=
  { state := State.RRQ_SENT, blkno := 1,
    msg := [0, 1, 104, 0, 111, 99, 116, 101, 116, 0], retries := 3,
    timerSet := true, addr := 1, file := [104], mode := octetMode,
    localIn := [], localOut := [], rc := true }

/-- A session whose recorded peer address is 10 (claim C2). -/
def c2sess : Sess :=
  { state := State.RRQ_SENT, blkno := 1, msg := [], retries := 6,
    timerSet := true, addr := 10, file := [104], mode := octetMode,
    localIn := [], localOut := [], rc := true }

/-- A 516-byte DATA packet for block 1. -/
def dataBlk1Full : List Nat := [0, 3, 0, 1] ++ List.replicate 512 65

/-- A session in `RRQ_SENT` awaiting block 1 with a spent retry budget
(claim C9's witness input). -/
def c9sessA : Sess :=
  { state := State.RRQ_SENT, blkno := 1, msg := [], retries := 2,
    timerSet := true, addr := 7, file := [104], mode := octetMode,
    localIn := [], localOut := [], rc := true }

/-- The session `c9sessA` after dispatching the 5-byte DATA packet
`[0, 3, 0, 1, 65]`. -/
def c9sessA2 : Sess :=
  { c9sessA with
    state := State.LAST_ACK_SENT,
    blkno := 2,
    msg := [0, 4, 0, 1],
    retries := TFTP_DEF_RETRIES,
    timerSet := false,
    localOut := [65] }

/-- A session in `ACK_SENT` awaiting block 2, to receive a stale
duplicate of block 1 (claim C9's witness input). -/
def c9sessB : Sess :=
  { c9sessA with state := State.ACK_SENT, blkno := 2 }

/-!
## Claim theorems

C1 - C10 of the specification, settled against the embedding above.
-/

/-- C1 counterexample: with no datagram ever arriving, the run of the
event loop does hit the `Timeout` failure, but it performs 6 `sendto`
calls, not 7, and the cumulative `select` waits are not
50+100+200+400+800+1600+3200 = 6350 ms. -/
theorem mainloop_norx_sends_ne_seven :
    (tftp_mainloop_norx 10 initLoopSt).isTimeout = true ∧
    ¬ (tftp_mainloop_norx 10 initLoopSt).finalSt.sends = 7 ∧
    ¬ (tftp_mainloop_norx 10 initLoopSt).finalSt.waits.sum = 6350 := by
  decide

/-- C1 amended: with no datagram ever arriving, the event loop (for any
fuel at least 6, i.e. for the genuine unbounded loop) transmits the
current outgoing packet exactly 6 times (the initial send plus 5
retries) and then fails with `Timeout` at the 6th expiry of the retry
counter; the backoff doubles each time, so the successive waits are
50, 100, 200, 400, 800, 1600 ms, 3150 ms in total. -/
theorem mainloop_norx_six_sends (k : Nat) :
    tftp_mainloop_norx (k + 6) initLoopSt =
      LoopRes.timeout
        { t := { timerSet := true, timer := 3155, backoff := 1600 },
          now := 3156, retries := 0, sends := 6,
          waits := [50, 100, 200, 400, 800, 1600] } ∧
    ([50, 100, 200, 400, 800, 1600] : List Nat).sum = 3150 :=
  ⟨rfl, rfl⟩

/-- C2 counterexample: the first valid reply (a DATA packet from sender
20) is recorded as the peer address, but a later datagram from sender
30 — here a stale duplicate that the dispatch drops — still replaces
the recorded peer address with 30. -/
theorem later_datagram_replaces_peer_addr :
    ((tftp_recv_dispatch c2sess 20 dataBlk1Full).map (fun s1 => s1.addr)
        = some 20) ∧
    ((tftp_recv_dispatch c2sess 20 dataBlk1Full).bind
        (fun s1 => tftp_recv_dispatch s1 30 dataBlk1Full)).map
        (fun s2 => s2.addr) = some 30 ∧
    (30 : Nat) ≠ 20 := by
  decide

/-- C2 amended: `recvfrom` stores the sender address of every received
datagram — valid or not — into `peer_addr` before any validation, so
after each receive the recorded peer address is that of the most
recent sender; later datagrams do replace it. -/
theorem recv_overwrites_peer_addr (s : Sess) (sender : Nat)
    (buf : List Nat) (s2 : Sess)
    (h : tftp_recv_dispatch s sender buf = some s2) :
    s2.addr = sender := by
  have haddr : ∀ (x : Sess) (b : List Nat) (y : Sess),
      tftp_dispatch x b = some y → y.addr = x.addr := by
    intro x b y hxy
    unfold tftp_dispatch at hxy
    repeat' split at hxy
    all_goals first
      | exact Option.noConfusion hxy
      | (injection hxy with hxy; subst hxy; rfl)
  exact haddr _ _ _ h

/-- Witness for C2 amended, at a concrete session, sender and buffer. -/
theorem recv_overwrites_peer_addr_witness :
    tftp_recv_dispatch c2sess 20 [] = some { c2sess with addr := 20 } ∧
    ({ c2sess with addr := 20 } : Sess).addr = 20 :=
  ⟨by decide,
   recv_overwrites_peer_addr c2sess 20 [] { c2sess with addr := 20 }
     (by decide)⟩

/-- C3 counterexample: an RRQ whose filename (507 bytes) and mode
(`"octet"`, 5 bytes) yield an on-wire packet of exactly
2 + (507 + 1) + (5 + 1) = 516 bytes is rejected by the encoder — the
length check counts `4 + len` although only 2 opcode bytes precede the
strings. -/
theorem rrq_516_bytes_fails :
    tftp_enc_packet (List.replicate 507 97) octetMode TFTP_OPCODE_RRQ 0 []
      = none ∧
    2 + (507 + 1) + (5 + 1) = 516 := by
  decide

/-- C3 amended: for DATA the encoder fails exactly when the on-wire
size 4 + datalen would reach 517 bytes (516 succeeds); for ERROR
exactly when 4 + strlen(msg) + 1 would reach 517; ACK never fails; but
for RRQ and WRQ the encoder fails as soon as the on-wire size
2 + (strlen(file) + 1) + (strlen(mode) + 1) reaches 515 bytes, so a
515- or 516-byte request is rejected. -/
theorem enc_packet_size_bounds (file mode data : List Nat) (blkno : Nat) :
    (tftp_enc_packet file mode TFTP_OPCODE_DATA blkno data = none ↔
       517 ≤ 4 + data.length) ∧
    (tftp_enc_packet file mode TFTP_OPCODE_ERROR blkno data = none ↔
       517 ≤ 4 + cstrlen data + 1) ∧
    (tftp_enc_packet file mode TFTP_OPCODE_ACK blkno data ≠ none) ∧
    (tftp_enc_packet file mode TFTP_OPCODE_RRQ blkno data = none ↔
       515 ≤ 2 + (cstrlen file + 1) + (cstrlen mode + 1)) ∧
    (tftp_enc_packet file mode TFTP_OPCODE_WRQ blkno data = none ↔
       515 ≤ 2 + (cstrlen file + 1) + (cstrlen mode + 1)) := by
  refine ⟨?_, ?_, ?_, ?_, ?_⟩ <;>
    · simp only [tftp_enc_packet, TFTP_OPCODE_RRQ, TFTP_OPCODE_WRQ,
        TFTP_OPCODE_DATA, TFTP_OPCODE_ACK, TFTP_OPCODE_ERROR,
        TFTP_MAX_MSGSIZE, TFTP_BLOCKSIZE]
      norm_num
      try simp
      try omega

/-- C4 (code bug): encoding a DATA packet with block 7 and an empty
payload — a legal value, the end-of-file marker — yields the 4-byte
buffer `[0, 3, 0, 7]`, but `tftp_dec_data` rejects that buffer
(`buflen < 5`), so the empty payload is not recovered and the
round trip fails. -/
theorem enc_dec_empty_data_roundtrip_fails :
    tftp_enc_packet [] [] TFTP_OPCODE_DATA 7 [] = some [0, 3, 0, 7] ∧
    tftp_dec_data [0, 3, 0, 7] = none := by
  decide

/-- C5 (code bug): `tftp_dec_data` rejects the 4-byte buffer
`[0, 3, 0, 1]` although the claim (and spec section 4.1) requires a
length-4 buffer to decode to a legal zero-length payload; a 5-byte
buffer decodes to its one payload byte. -/
theorem dec_data_rejects_four_byte_buffer :
    tftp_dec_data [0, 3, 0, 1] = none ∧
    ([0, 3, 0, 1] : List Nat).length = 4 ∧
    tftp_dec_data [0, 3, 0, 1, 9] = some [9] := by
  decide

/-- C6 (code bug): in `RRQ_SENT` with block 1, a 4-byte DATA packet for
block 1 — which `tftp_dec_data` deems malformed — is NOT dropped: the
error return is ignored, an ACK(1) is encoded into the outgoing
buffer, the block number advances to 2, the retry budget is reset and
the state moves to `LAST_ACK_SENT`. -/
theorem short_data_packet_not_dropped :
    tftp_dispatch c6sess [0, 3, 0, 1] =
      some { c6sess with
             state := State.LAST_ACK_SENT,
             blkno := 2,
             msg := [0, 4, 0, 1],
             retries := TFTP_DEF_RETRIES,
             timerSet := false } ∧
    State.LAST_ACK_SENT ≠ c6sess.state := by
  decide

/-- C7: starting in `RRQ_SENT` with blkno = 1, a DATA packet for block
1 with a 512-byte payload produces `ACK_SENT`, blkno = 2, and an
outgoing buffer holding exactly the encoding of ACK(1); a DATA packet
for block 1 with a 100-byte payload produces `LAST_ACK_SENT`. -/
theorem rrq_sent_data_dispatch :
    tftp_dispatch c7sess dataBlk1Full =
      some { c7sess with
             state := State.ACK_SENT,
             blkno := 2,
             msg := [0, 4, 0, 1],
             timerSet := false,
             retries := TFTP_DEF_RETRIES,
             localOut := List.replicate 512 65 } ∧
    tftp_enc_packet c7sess.file c7sess.mode TFTP_OPCODE_ACK 1 [] =
      some [0, 4, 0, 1] ∧
    (tftp_dispatch c7sess ([0, 3, 0, 1] ++ List.replicate 100 66)).map
      (fun s => s.state) = some State.LAST_ACK_SENT := by
  decide

/-- C8 counterexample: a buffer of length 2 is NOT rejected by
`tftp_dec_opcode` — it decodes to opcode 4 — although the claim says
lengths 0 to 3 are all malformed. -/
theorem dec_opcode_len2_succeeds :
    tftp_dec_opcode [0, 4] = some 4 ∧
    ([0, 4] : List Nat).length = 2 := by
  decide

/-- C8 amended: `tftp_dec_opcode` returns Malformed exactly for buffer
lengths 0 and 1 (lengths 2 and 3 succeed); `tftp_dec_blkno` exactly
for lengths 0 to 3; `tftp_dec_error` exactly when the bytes from
offset 4 onward contain no NUL (which covers every buffer shorter
than 5 bytes). -/
theorem dec_malformed_bounds (buf : List Nat) :
    (tftp_dec_opcode buf = none ↔ buf.length < 2) ∧
    (tftp_dec_blkno buf = none ↔ buf.length < 4) ∧
    (tftp_dec_error buf = none ↔
       (buf.drop 4).all (fun b => b != 0) = true) := by
  refine ⟨?_, ?_, ?_⟩
  · unfold tftp_dec_opcode
    split_ifs with h <;> simp [h]
  · unfold tftp_dec_blkno
    split_ifs with h <;> simp [h]
  · unfold tftp_dec_error
    split_ifs with h1 h2
    · have hd : buf.drop 4 = [] := List.drop_eq_nil_of_le (by omega)
      simp [hd]
    · simp [h2]
    · simp [h2]

/-- C9: (i) every dispatch transition that leaves the session in an
active (non-CLOSED) state and advances the state or the block number
resets the retry counter to the default 6 and clears the timer; (ii) a
cleared timer makes the next send phase restore the backoff to the
default 50 ms; (iii) a received DATA or ACK datagram whose block
number does not match the session's leaves the session — state, block
number, retry counter and all — unchanged. -/
theorem progress_resets_retry_budget :
    (∀ (s s2 : Sess) (buf : List Nat),
        tftp_dispatch s buf = some s2 →
        s2.state ≠ State.CLOSED →
        (s2.state ≠ s.state ∨ s2.blkno ≠ s.blkno) →
        s2.retries = TFTP_DEF_RETRIES ∧ s2.timerSet = false) ∧
    (∀ (t b now : Nat),
        (timer_phase { timerSet := false, timer := t, backoff := b }
          now).1.backoff = TFTP_DEF_TIMEOUT_MS) ∧
    (∀ (s : Sess) (buf : List Nat) (op b : Nat),
        tftp_dec_opcode buf = some op →
        (op = TFTP_OPCODE_DATA ∨ op = TFTP_OPCODE_ACK) →
        tftp_dec_blkno buf = some b →
        b ≠ s.blkno →
        tftp_dispatch s buf = some s) := by
  refine ⟨?_, ?_, ?_⟩
  · intro s s2 buf h hclosed hchange
    unfold tftp_dispatch at h
    repeat' split at h
    all_goals first
      | exact Option.noConfusion h
      | (injection h with h; subst h;
         first
           | exact ⟨rfl, rfl⟩
           | exact absurd rfl hclosed
           | (rcases hchange with hc | hc <;> exact absurd rfl hc))
  · intro t b now
    rfl
  · intro s buf op b h1 hop h2 hb
    obtain ⟨st, blk, msg0, rt, ts, ad, fl, md, lin, lout, rcflag⟩ := s
    simp only at hb
    rcases hop with rfl | rfl <;>
      cases st <;>
        simp [tftp_dispatch, h1, h2, TFTP_OPCODE_DATA, TFTP_OPCODE_ACK,
          TFTP_OPCODE_ERROR, hb]

/-- Witness for C9, at concrete sessions and buffers: a 5-byte DATA
packet for the expected block 1 advances `c9sessA` to `c9sessA2` with
the retry budget reset and the timer cleared; the send phase on a
cleared timer restores the 50 ms backoff; and a stale DATA packet for
block 1 leaves `c9sessB` (which expects block 2) unchanged. -/
theorem progress_resets_retry_budget_witness :
    tftp_dispatch c9sessA [0, 3, 0, 1, 65] = some c9sessA2 ∧
    c9sessA2.retries = TFTP_DEF_RETRIES ∧
    c9sessA2.timerSet = false ∧
    (timer_phase { timerSet := false, timer := 0, backoff := 1600 }
      3156).1.backoff = TFTP_DEF_TIMEOUT_MS ∧
    tftp_dispatch c9sessB [0, 3, 0, 1, 65] = some c9sessB :=
  ⟨by decide,
   (progress_resets_retry_budget.1 c9sessA c9sessA2 [0, 3, 0, 1, 65]
     (by decide) (by decide) (Or.inr (by decide))).1,
   (progress_resets_retry_budget.1 c9sessA c9sessA2 [0, 3, 0, 1, 65]
     (by decide) (by decide) (Or.inr (by decide))).2,
   progress_resets_retry_budget.2.1 0 1600 3156,
   progress_resets_retry_budget.2.2 c9sessB [0, 3, 0, 1, 65] 3 1
     (by decide) (Or.inl rfl) (by decide) (by decide)⟩

/-- C10: for any opcode outside the five TFTP opcodes, the encoder does
not fail: it writes exactly the two big-endian opcode bytes and the
resulting outgoing length (the returned `msglen`) is 2, ignoring the
block-number and data arguments. -/
theorem enc_unknown_opcode (file mode data : List Nat)
    (opcode blkno : Nat)
    (h1 : opcode ≠ TFTP_OPCODE_RRQ) (h2 : opcode ≠ TFTP_OPCODE_WRQ)
    (h3 : opcode ≠ TFTP_OPCODE_DATA) (h4 : opcode ≠ TFTP_OPCODE_ACK)
    (h5 : opcode ≠ TFTP_OPCODE_ERROR) :
    tftp_enc_packet file mode opcode blkno data =
      some [hi opcode, lo opcode] ∧
    [hi opcode, lo opcode].length = 2 := by
  have hrw : ¬ (opcode = TFTP_OPCODE_RRQ ∨ opcode = TFTP_OPCODE_WRQ) := by
    rintro (h | h)
    · exact h1 h
    · exact h2 h
  refine ⟨?_, rfl⟩
  simp only [tftp_enc_packet]
  rw [if_neg hrw, if_neg h3, if_neg h4, if_neg h5]

/-- Witness for C10 at opcode 99 with nonempty data and blkno 5. -/
theorem enc_unknown_opcode_witness :
    tftp_enc_packet [] [] 99 5 [1, 2, 3] = some [hi 99, lo 99] ∧
    [hi 99, lo 99].length = 2 :=
  enc_unknown_opcode [] [] [1, 2, 3] 99 5 (by decide) (by decide)
    (by decide) (by decide) (by decide)

end Tftp
